import Mathlib

/-! # Home flood monitoring system: verification of the risk pipeline

A shallow embedding, over exact rationals, of the quality-control,
feature-extraction, risk-component, risk-composition and category-mapping
functions of the repository (src/quality_control.py, src/features.py,
src/risk_components/, src/risk_model.py), with theorems checking the
specification's claims against them. Python floats are modelled as exact
rationals; Python exceptions as `Except` errors. -/

namespace FloodMonitor

/-- A raw sensor value as stored in a Python reading dict: the Python value
`None`, a float NaN, a value that `float(...)` cannot convert, or a real
number (modelled exactly as a rational). -/
inductive PyValue where
  | pyNone
  | pyNaN
  | nonNumeric
  | num (q : ℚ)
deriving DecidableEq

/-- A sensor reading: a Python dict from sensor-position key to value,
modelled as an insertion-ordered association list. -/
abbrev Reading := List (String × PyValue)

/-- The per-value checks of `_reading_passes_basic_qc`
(src/quality_control.py): the value is not `None`, converts to a float, is
not NaN, and lies within `[0.0, 1.0]` inclusive. -/
def valuePassesQC : PyValue → Bool
  | .pyNone => false
  | .pyNaN => false
  | .nonNumeric => false
  | .num v => if 0 ≤ v ∧ v ≤ 1 then true else false

/-- Embedding of `_reading_passes_basic_qc` (src/quality_control.py): every value of the
reading passes the per-value checks; any failing value rejects the whole
reading. -/
def reading_passes_basic_qc (reading : Reading) : Bool :=
  reading.all fun kv => valuePassesQC kv.2

/-- The `ValueError` raised by `QC_and_smooth` when every reading of the
batch fails QC and no fallback is available. -/
inductive QCError where
  | noValidReading
deriving DecidableEq

/-- Embedding of `QC_and_smooth` (src/quality_control.py): return the first reading of
the batch that passes basic QC; if none does, fall back to
`previous_valid_reading` when provided, otherwise raise. -/
def QC_and_smooth (batch_readings : List Reading)
    (previous_valid_reading : Option Reading) : Except QCError Reading :=
  match batch_readings.find? (fun r => reading_passes_basic_qc r) with
  | some reading => .ok reading
  | none =>
      match previous_valid_reading with
      | some prev => .ok prev
      | none => .error .noValidReading

/-- Embedding of `compute_soil_saturation_component`
(src/risk_components/soil_saturation.py): piecewise-linear base risk from
the normalized saturation index. -/
def compute_soil_saturation_component (soil_saturation_current : ℚ) : ℚ :=
  let S := soil_saturation_current
  if S ≤ 0.2 then 0.0
  else if 0.2 < S ∧ S ≤ 1.0 then ((S - 0.2) / (1.0 - 0.2)) * 70.0
  else
    let S_capped := min S 1.5
    70.0 + ((S_capped - 1.0) / (1.5 - 1.0)) * 30.0

/-- The `ZeroDivisionError` raised by Python float division when the IDF
reference is exactly zero. -/
inductive StormError where
  | divisionByZero
deriving DecidableEq

/-- Embedding of `compute_storm_severity_component`
(src/risk_components/storm_severity.py): the forecast-to-IDF ratio mapped
piecewise onto `[0, 1.5]`; the division raises when the reference is zero. -/
def compute_storm_severity_component (forecast_24h_mm IDF_24h_2yr_mm : ℚ) :
    Except StormError ℚ :=
  if IDF_24h_2yr_mm = 0 then .error .divisionByZero
  else
    let storm_severity_ratio := forecast_24h_mm / IDF_24h_2yr_mm
    if storm_severity_ratio ≤ 0.3 then .ok 0.0
    else if 0.3 < storm_severity_ratio ∧ storm_severity_ratio ≤ 1.0 then
      .ok ((storm_severity_ratio - 0.3) / (1.0 - 0.3))
    else
      let ratio_capped := min storm_severity_ratio 1.5
      .ok (1.0 + (ratio_capped - 1.0) / (1.5 - 1.0) * 0.5)

/-- Embedding of `compute_site_sensitivity_component`
(src/risk_components/site_sensitivity.py): last-hour wetting rate mapped
onto `[0, 1]`. -/
def compute_site_sensitivity_component
    (soil_saturation_current soil_saturation_1h_ago : ℚ) : ℚ :=
  let delta_S_1h := max 0.0 (soil_saturation_current - soil_saturation_1h_ago)
  let DELTA_S_REF : ℚ := 0.1
  let sensitivity_index := delta_S_1h / DELTA_S_REF
  max 0.0 (min sensitivity_index 1.0)

/-- Embedding of `compute_risk_score` (src/risk_model.py): combine the three components
multiplicatively into the internal score and clamp it to `[0, 100]` for the
displayed score; an error from the storm component propagates. -/
def compute_risk_score (soil_saturation_current soil_saturation_1h_ago
    forecast_24h_mm IDF_24h_2yr_mm : ℚ) : Except StormError (ℚ × ℚ) :=
  let base_soil_risk := compute_soil_saturation_component soil_saturation_current
  match compute_storm_severity_component forecast_24h_mm IDF_24h_2yr_mm with
  | .error err => .error err
  | .ok storm_factor =>
      let site_sensitivity_factor :=
        compute_site_sensitivity_component soil_saturation_current
          soil_saturation_1h_ago
      let amplification_factor := 1.0 + site_sensitivity_factor * storm_factor
      let risk_score_internal := base_soil_risk * amplification_factor
      let risk_score_displayed := max 0.0 (min risk_score_internal 100.0)
      .ok (risk_score_internal, risk_score_displayed)

/-- Embedding of `map_risk_category` (src/risk_model.py): bucket the displayed score into
the four user-facing labels. -/
def map_risk_category (risk_score_displayed : ℚ) : String :=
  let score := risk_score_displayed
  if score < 30.0 then "Low"
  else if score < 60.0 then "Moderate"
  else if score < 80.0 then "High"
  else "Severe"

/-- The `KeyError` raised by a Python dict lookup of a missing key. -/
inductive KeyError where
  | keyError (key : String)
deriving DecidableEq

/-- First-match lookup in a Python dict modelled as an association list. -/
def dictGet (d : List (String × ℚ)) (key : String) : Option ℚ :=
  (d.find? fun kv => kv.1 == key).map fun kv => kv.2

/-- Embedding of `compute_features` (src/features.py): read the four wall sensors,
average them, take their max/min and the asymmetry, and bundle the two
rainfall figures through unchanged; a missing sensor key raises. -/
def compute_features (saturation_values : List (String × ℚ))
    (rain_6h_prev rain_12h_forecast : ℚ) :
    Except KeyError (List (String × ℚ)) :=
  match dictGet saturation_values "north_sensor" with
  | none => .error (.keyError "north_sensor")
  | some sat_north_sensor =>
  match dictGet saturation_values "south_sensor" with
  | none => .error (.keyError "south_sensor")
  | some sat_south_sensor =>
  match dictGet saturation_values "east_sensor" with
  | none => .error (.keyError "east_sensor")
  | some sat_east_sensor =>
  match dictGet saturation_values "west_sensor" with
  | none => .error (.keyError "west_sensor")
  | some sat_west_sensor =>
      let sat_values_list :=
        [sat_north_sensor, sat_south_sensor, sat_east_sensor, sat_west_sensor]
      let sat_avg := sat_values_list.sum / (sat_values_list.length : ℚ)
      let max_sat :=
        max (max (max sat_north_sensor sat_south_sensor) sat_east_sensor)
          sat_west_sensor
      let min_sat :=
        min (min (min sat_north_sensor sat_south_sensor) sat_east_sensor)
          sat_west_sensor
      let sat_asymmetry := max_sat - min_sat
      .ok [("sat_avg", sat_avg), ("max_sat", max_sat),
           ("sat_asymmetry", sat_asymmetry), ("rain_6h_prev", rain_6h_prev),
           ("rain_12h_forecast", rain_12h_forecast)]

/-- The spec's piecewise-linear reference curve for the soil-saturation base
risk, written from the spec's words: 0 for S ≤ 0.2; `((S − 0.2)/0.8) × 70`
for 0.2 < S ≤ 1.0; `70 + ((min(S, 1.5) − 1.0)/0.5) × 30` for S > 1.0. -/
def soil_base_risk_spec (S : ℚ) : ℚ :=
  if S ≤ 0.2 then 0
  else if 0.2 < S ∧ S ≤ 1.0 then ((S - 0.2) / 0.8) * 70
  else 70 + ((min S 1.5 - 1.0) / 0.5) * 30

/-- clamp as the spec writes it: `clamp(x, lo, hi)`. -/
def clamp (x lo hi : ℚ) : ℚ := max lo (min x hi)

/-! ## Helper lemmas -/

/-- Evaluation of the soil component on the dry segment. -/
lemma soil_eval_low (S : ℚ) (h : S ≤ 0.2) :
    compute_soil_saturation_component S = 0 := by
  unfold compute_soil_saturation_component
  dsimp only
  rw [if_pos h]
  norm_num

/-- Evaluation of the soil component on the middle segment, in closed form. -/
lemma soil_eval_mid (S : ℚ) (h1 : 0.2 < S) (h2 : S ≤ 1) :
    compute_soil_saturation_component S = 87.5 * S - 17.5 := by
  unfold compute_soil_saturation_component
  rw [if_neg (by linarith), if_pos ⟨h1, by linarith⟩]
  ring

/-- Evaluation of the soil component on the very wet segment, in closed
form. -/
lemma soil_eval_high (S : ℚ) (h : 1 < S) :
    compute_soil_saturation_component S = 70 + (min S 1.5 - 1) * 60 := by
  unfold compute_soil_saturation_component
  rw [if_neg (by linarith), if_neg (by rintro ⟨-, hc⟩; linarith)]
  ring

/-- The soil component is nonnegative. -/
lemma soil_nonneg (S : ℚ) : 0 ≤ compute_soil_saturation_component S := by
  rcases le_or_lt S 0.2 with h | h
  · rw [soil_eval_low S h]
  · rcases le_or_lt S 1 with h2 | h2
    · rw [soil_eval_mid S h h2]; linarith
    · rw [soil_eval_high S h2]
      have hm : (1 : ℚ) ≤ min S 1.5 := le_min (by linarith) (by norm_num)
      linarith

/-- The soil component is at most 100. -/
lemma soil_le_100 (S : ℚ) : compute_soil_saturation_component S ≤ 100 := by
  rcases le_or_lt S 0.2 with h | h
  · rw [soil_eval_low S h]; norm_num
  · rcases le_or_lt S 1 with h2 | h2
    · rw [soil_eval_mid S h h2]; linarith
    · rw [soil_eval_high S h2]
      have hm : min S 1.5 ≤ 1.5 := min_le_right _ _
      linarith

/-- The soil component is monotonically non-decreasing. -/
lemma soil_mono (S1 S2 : ℚ) (h : S1 ≤ S2) :
    compute_soil_saturation_component S1 ≤ compute_soil_saturation_component S2 := by
  rcases le_or_lt S2 0.2 with hb | hb
  · rw [soil_eval_low S1 (le_trans h hb), soil_eval_low S2 hb]
  · rcases le_or_lt S2 1 with hc | hc
    · rw [soil_eval_mid S2 hb hc]
      rcases le_or_lt S1 0.2 with ha | ha
      · rw [soil_eval_low S1 ha]; linarith
      · rw [soil_eval_mid S1 ha (le_trans h hc)]; linarith
    · rw [soil_eval_high S2 hc]
      have hm2 : (1 : ℚ) ≤ min S2 1.5 := le_min (by linarith) (by norm_num)
      rcases le_or_lt S1 0.2 with ha | ha
      · rw [soil_eval_low S1 ha]; linarith
      · rcases le_or_lt S1 1 with hd | hd
        · rw [soil_eval_mid S1 ha hd]; linarith
        · rw [soil_eval_high S1 hd]
          have hmm : min S1 1.5 ≤ min S2 1.5 := min_le_min h le_rfl
          linarith

/-- The site-sensitivity factor is nonnegative. -/
lemma sens_nonneg (a b : ℚ) : 0 ≤ compute_site_sensitivity_component a b := by
  unfold compute_site_sensitivity_component
  dsimp only
  exact le_trans (by norm_num) (le_max_left _ _)

/-- The site-sensitivity factor is at most one. -/
lemma sens_le_one (a b : ℚ) : compute_site_sensitivity_component a b ≤ 1 := by
  unfold compute_site_sensitivity_component
  dsimp only
  exact max_le (by norm_num) (le_trans (min_le_right _ _) (by norm_num))

/-- For a nonzero IDF reference the storm component succeeds, with a value
in `[0, 1.5]`. -/
lemma storm_ok (fc idf : ℚ) (h : idf ≠ 0) :
    ∃ v, compute_storm_severity_component fc idf = Except.ok v ∧
      0 ≤ v ∧ v ≤ 1.5 := by
  unfold compute_storm_severity_component
  rw [if_neg h]
  dsimp only
  split_ifs with h1 h2
  · exact ⟨0.0, rfl, by norm_num, by norm_num⟩
  · obtain ⟨h2a, h2b⟩ := h2
    refine ⟨_, rfl, ?_, ?_⟩
    · apply div_nonneg (by linarith) (by norm_num)
    · rw [div_le_iff₀ (by norm_num)]; linarith
  · push_neg at h1
    have hr1 : 1 < fc / idf := by
      by_contra hcon
      push_neg at hcon
      exact h2 ⟨by linarith, by linarith⟩
    have hmle : min (fc / idf) 1.5 ≤ 1.5 := min_le_right _ _
    have hmge : (1 : ℚ) ≤ min (fc / idf) 1.5 := le_min (by linarith) (by norm_num)
    have hval : (1.0 : ℚ) + (min (fc / idf) 1.5 - 1.0) / (1.5 - 1.0) * 0.5 =
        min (fc / idf) 1.5 := by ring
    exact ⟨_, rfl, by rw [hval]; linarith, by rw [hval]; linarith⟩

/-- Lookup at the head key of an association list. -/
lemma dictGet_head (k : String) (v : ℚ) (rest : List (String × ℚ)) :
    dictGet ((k, v) :: rest) k = some v := by
  simp [dictGet, List.find?]

/-- Lookup skips a head entry whose key differs. -/
lemma dictGet_ne (k k2 : String) (v : ℚ) (rest : List (String × ℚ))
    (h : (k == k2) = false) :
    dictGet ((k, v) :: rest) k2 = dictGet rest k2 := by
  simp [dictGet, List.find?, h]

/-- Lookup in the empty association list. -/
lemma dictGet_nil (k : String) : dictGet [] k = Option.none := rfl

/-- Unfolding of `compute_risk_score` when the storm component succeeds. -/
lemma risk_eval (Sc S1 fc idf v : ℚ)
    (hst : compute_storm_severity_component fc idf = Except.ok v) :
    compute_risk_score Sc S1 fc idf =
      Except.ok (compute_soil_saturation_component Sc *
          (1 + compute_site_sensitivity_component Sc S1 * v),
        max 0 (min (compute_soil_saturation_component Sc *
          (1 + compute_site_sensitivity_component Sc S1 * v)) 100)) := by
  unfold compute_risk_score
  rw [hst]
  norm_num

/-! ## Claims -/

/-- C1, counterexample: on the spec's own example batch
`[{"a": 0.2}, {"a": 0.3}, {"a": 1.5}]`, `QC_and_smooth` returns the first
passing reading `{"a": 0.2}`, not the per-key median `{"a": 0.25}` the claim
asserts. -/
theorem C1_median_counterexample :
    QC_and_smooth [[("a", PyValue.num 0.2)], [("a", PyValue.num 0.3)],
        [("a", PyValue.num 1.5)]] Option.none =
      Except.ok [("a", PyValue.num 0.2)] ∧
    ([("a", PyValue.num 0.2)] : Reading) ≠ [("a", PyValue.num 0.25)] := by
  constructor
  · norm_num [QC_and_smooth, reading_passes_basic_qc, valuePassesQC,
      List.find?, List.all]
  · norm_num

/-- C1 (amended): for every batch in which at least one reading passes basic
QC, `QC_and_smooth` returns the first passing reading in batch order (every
reading before it failing QC), not a per-key median across the passing
readings. -/
theorem C1_first_passing_reading (skipped : List Reading) (reading : Reading)
    (rest : List Reading) (previous : Option Reading)
    (hskip : ∀ r ∈ skipped, reading_passes_basic_qc r = false)
    (hpass : reading_passes_basic_qc reading = true) :
    QC_and_smooth (skipped ++ reading :: rest) previous = Except.ok reading := by
  have hf : (skipped ++ reading :: rest).find?
      (fun r => reading_passes_basic_qc r) = some reading := by
    induction skipped with
    | nil => simp [List.find?, hpass]
    | cons head tail ih =>
        have hh := hskip head (List.mem_cons_self _ _)
        simp only [List.cons_append, List.find?, hh]
        exact ih fun r hr => hskip r (List.mem_cons_of_mem _ hr)
  simp [QC_and_smooth, hf]

/-- C1, witness: a concrete batch whose first reading fails QC and whose
second passes; `QC_and_smooth` returns the second. -/
theorem C1_first_passing_witness :
    QC_and_smooth [[("a", PyValue.pyNaN)], [("a", PyValue.num 0.3)]]
      Option.none = Except.ok [("a", PyValue.num 0.3)] := by
  have h := C1_first_passing_reading [[("a", PyValue.pyNaN)]]
      [("a", PyValue.num 0.3)] [] Option.none
      (by
        intro r hr
        simp only [List.mem_singleton] at hr
        subst hr
        rfl)
      (by norm_num [reading_passes_basic_qc, valuePassesQC, List.all])
  simpa using h

/-- C2: for every input with a strictly positive IDF reference,
`compute_risk_score` succeeds with
`internal = base_soil_risk * (1 + site_sensitivity_factor * storm_factor)`,
`internal ≥ 0`, `displayed = clamp(internal, 0, 100)` so `displayed` lies in
`[0, 100]`; and for some such input `internal` exceeds 100. -/
theorem C2_risk_score_bounds :
    (∀ S_now S_1h fc idf : ℚ, 0 < idf →
      ∃ internal displayed storm : ℚ,
        compute_storm_severity_component fc idf = Except.ok storm ∧
        compute_risk_score S_now S_1h fc idf = Except.ok (internal, displayed) ∧
        internal = compute_soil_saturation_component S_now *
          (1 + compute_site_sensitivity_component S_now S_1h * storm) ∧
        0 ≤ internal ∧
        displayed = clamp internal 0 100 ∧
        0 ≤ displayed ∧ displayed ≤ 100) ∧
    (∃ S_now S_1h fc idf internal displayed : ℚ, 0 < idf ∧
      compute_risk_score S_now S_1h fc idf = Except.ok (internal, displayed) ∧
      100 < internal) := by
  constructor
  · intro S_now S_1h fc idf hidf
    obtain ⟨storm, hst, hs0, hs15⟩ := storm_ok fc idf (ne_of_gt hidf)
    have hmul : 0 ≤ compute_site_sensitivity_component S_now S_1h * storm :=
      mul_nonneg (sens_nonneg _ _) hs0
    refine ⟨_, _, storm, hst, risk_eval _ _ _ _ _ hst, rfl, ?_, rfl, ?_, ?_⟩
    · exact mul_nonneg (soil_nonneg _) (by linarith)
    · exact le_max_left _ _
    · exact max_le (by norm_num) (min_le_right _ _)
  · refine ⟨1.5, 0, 50, 25, 250, 100, by norm_num, ?_, by norm_num⟩
    norm_num [compute_risk_score, compute_storm_severity_component,
      compute_soil_saturation_component, compute_site_sensitivity_component,
      min_def, max_def]

/-- C2, witness: the spec's end-to-end example, `S_now = 0.6`,
`S_1h_ago = 0.5`, forecast 50 mm against a 25 mm reference. -/
theorem C2_risk_score_witness :
    ∃ internal displayed storm : ℚ,
      compute_storm_severity_component 50 25 = Except.ok storm ∧
      compute_risk_score 0.6 0.5 50 25 = Except.ok (internal, displayed) ∧
      internal = compute_soil_saturation_component 0.6 *
        (1 + compute_site_sensitivity_component 0.6 0.5 * storm) ∧
      0 ≤ internal ∧
      displayed = clamp internal 0 100 ∧
      0 ≤ displayed ∧ displayed ≤ 100 :=
  C2_risk_score_bounds.1 0.6 0.5 50 25 (by norm_num)

/-- C3: the soil-saturation base risk component equals the spec's
piecewise-linear reference curve everywhere, and its value always lies in
`[0, 100]`. -/
theorem C3_soil_component_matches_spec (S : ℚ) :
    compute_soil_saturation_component S = soil_base_risk_spec S ∧
    0 ≤ compute_soil_saturation_component S ∧
    compute_soil_saturation_component S ≤ 100 := by
  refine ⟨?_, soil_nonneg S, soil_le_100 S⟩
  unfold compute_soil_saturation_component soil_base_risk_spec
  dsimp only
  split_ifs <;> norm_num

/-- C4: `map_risk_category` partitions the scores into half-open buckets
with no gaps or overlaps: "Low" exactly below 30, "Moderate" exactly on
`[30, 60)`, "High" exactly on `[60, 80)`, and "Severe" exactly from 80 up;
in particular a score of exactly 30 is "Moderate", not "Low". -/
theorem C4_category_partition (score : ℚ) :
    (map_risk_category score = "Low" ↔ score < 30) ∧
    (map_risk_category score = "Moderate" ↔ 30 ≤ score ∧ score < 60) ∧
    (map_risk_category score = "High" ↔ 60 ≤ score ∧ score < 80) ∧
    (map_risk_category score = "Severe" ↔ 80 ≤ score) := by
  unfold map_risk_category
  dsimp only
  split_ifs with h1 h2 h3 <;>
    refine ⟨⟨fun hcat => ?_, fun hsc => ?_⟩, ⟨fun hcat => ?_, fun hsc => ?_⟩,
      ⟨fun hcat => ?_, fun hsc => ?_⟩, ⟨fun hcat => ?_, fun hsc => ?_⟩⟩ <;>
    first
      | rfl
      | linarith
      | (constructor <;> linarith)
      | (exfalso; simp at hcat)

/-- C4, witness: the boundary score 30 maps to "Moderate". -/
theorem C4_category_witness : map_risk_category 30 = "Moderate" :=
  ((C4_category_partition 30).2.1).mpr ⟨by norm_num, by norm_num⟩

/-- C5: when no reading of the batch passes basic QC (the empty batch
included), `QC_and_smooth` returns the supplied `previous_valid_reading`,
and raises the no-valid-reading error when none is supplied. -/
theorem C5_qc_fallback_or_fail (batch : List Reading) (prev : Reading)
    (h : ∀ r ∈ batch, reading_passes_basic_qc r = false) :
    QC_and_smooth batch (some prev) = Except.ok prev ∧
    QC_and_smooth batch Option.none = Except.error QCError.noValidReading := by
  have hf : batch.find? (fun r => reading_passes_basic_qc r) = Option.none := by
    rw [List.find?_eq_none]
    intro x hx
    simp [h x hx]
  constructor <;> simp [QC_and_smooth, hf]

/-- C5, witness: the spec's example, an all-invalid batch with and without
the fallback `{"a": 0.4}`. -/
theorem C5_qc_fallback_witness :
    QC_and_smooth [[("a", PyValue.num 1.5)]] (some [("a", PyValue.num 0.4)]) =
      Except.ok [("a", PyValue.num 0.4)] ∧
    QC_and_smooth [[("a", PyValue.num 1.5)]] Option.none =
      Except.error QCError.noValidReading :=
  C5_qc_fallback_or_fail _ _ (by
    intro r hr
    simp only [List.mem_singleton] at hr
    subst hr
    norm_num [reading_passes_basic_qc, valuePassesQC, List.all])

/-- C6, counterexample: with a strictly negative IDF reference (50 mm
forecast against −25 mm) the storm-severity component does not fail: it
returns the factor 0 computed from the negative ratio. -/
theorem C6_negative_reference_counterexample :
    compute_storm_severity_component 50 (-25) = Except.ok 0.0 := by
  norm_num [compute_storm_severity_component]

/-- C6 (amended): the storm-severity component fails with the
division-by-zero error exactly when the IDF reference is zero; for any
nonzero reference, a negative one included, it returns a factor. -/
theorem C6_zero_reference_fails (fc idf : ℚ) :
    (idf = 0 →
      compute_storm_severity_component fc idf =
        Except.error StormError.divisionByZero) ∧
    (idf ≠ 0 → ∃ v, compute_storm_severity_component fc idf = Except.ok v) := by
  constructor
  · intro h
    unfold compute_storm_severity_component
    rw [if_pos h]
  · intro h
    obtain ⟨v, hv, -, -⟩ := storm_ok fc idf h
    exact ⟨v, hv⟩

/-- C6, witness: a zero reference raises; the reference 25 mm returns a
factor. -/
theorem C6_zero_reference_witness :
    compute_storm_severity_component 50 0 =
      Except.error StormError.divisionByZero ∧
    ∃ v, compute_storm_severity_component 50 25 = Except.ok v :=
  ⟨(C6_zero_reference_fails 50 0).1 rfl,
   (C6_zero_reference_fails 50 25).2 (by norm_num)⟩

/-- C7: the site-sensitivity factor equals
`clamp(max(0, S_now − S_1h_ago)/0.1, 0, 1)`; it is 0 whenever
`S_now ≤ S_1h_ago`, equals 1 whenever the rise is at least 0.1, and always
lies in `[0, 1]`. -/
theorem C7_site_sensitivity_clamp (S_now S_1h : ℚ) :
    compute_site_sensitivity_component S_now S_1h =
      clamp (max 0 (S_now - S_1h) / 0.1) 0 1 ∧
    (S_now ≤ S_1h → compute_site_sensitivity_component S_now S_1h = 0) ∧
    (0.1 ≤ S_now - S_1h → compute_site_sensitivity_component S_now S_1h = 1) ∧
    0 ≤ compute_site_sensitivity_component S_now S_1h ∧
    compute_site_sensitivity_component S_now S_1h ≤ 1 := by
  refine ⟨?_, ?_, ?_, sens_nonneg _ _, sens_le_one _ _⟩
  · unfold compute_site_sensitivity_component clamp
    norm_num
  · intro h
    unfold compute_site_sensitivity_component
    dsimp only
    rw [max_eq_left (by linarith : S_now - S_1h ≤ (0.0 : ℚ))]
    norm_num
  · intro h
    unfold compute_site_sensitivity_component
    dsimp only
    rw [max_eq_right (by linarith : (0.0 : ℚ) ≤ S_now - S_1h)]
    rw [min_eq_right ((le_div_iff₀ (by norm_num)).mpr (by linarith))]
    norm_num

/-- C7, witness: at a rise of exactly 0.1 the factor is 1, and with drying
(`S_now ≤ S_1h_ago`) it is 0. -/
theorem C7_site_sensitivity_witness :
    compute_site_sensitivity_component 0.6 0.5 = 1 ∧
    compute_site_sensitivity_component 0.4 0.5 = 0 :=
  ⟨(C7_site_sensitivity_clamp 0.6 0.5).2.2.1 (by norm_num),
   (C7_site_sensitivity_clamp 0.4 0.5).2.1 (by norm_num)⟩

/-- C8: the soil-saturation base risk takes the value 70 at `S = 1`, is
continuous there (ε-δ form), and is monotonically non-decreasing over its
whole domain. -/
theorem C8_soil_continuity_monotone :
    compute_soil_saturation_component 1 = 70 ∧
    (∀ ε : ℚ, 0 < ε → ∃ δ : ℚ, 0 < δ ∧ ∀ S : ℚ, |S - 1| < δ →
      |compute_soil_saturation_component S -
        compute_soil_saturation_component 1| < ε) ∧
    (∀ S1 S2 : ℚ, S1 ≤ S2 →
      compute_soil_saturation_component S1 ≤
        compute_soil_saturation_component S2) := by
  have h70 : compute_soil_saturation_component 1 = 70 := by
    rw [soil_eval_mid 1 (by norm_num) le_rfl]
    norm_num
  refine ⟨h70, ?_, soil_mono⟩
  intro ε hε
  refine ⟨min (ε / 100) (1 / 8), lt_min (by positivity) (by norm_num), ?_⟩
  intro S hS
  rw [h70]
  rw [abs_lt] at hS
  obtain ⟨hSl, hSr⟩ := hS
  have hδ1 : min (ε / 100) (1 / 8) ≤ ε / 100 := min_le_left _ _
  have hδ2 : min (ε / 100) (1 / 8) ≤ 1 / 8 := min_le_right _ _
  rcases le_or_lt S 1 with hc | hc
  · rw [soil_eval_mid S (by linarith) hc, abs_lt]
    constructor <;> linarith
  · rw [soil_eval_high S hc, min_eq_left (by linarith : S ≤ (1.5 : ℚ)), abs_lt]
    constructor <;> linarith

/-- C8, witness: the component hits 70 at `S = 1` and is non-decreasing from
`S = 0.5` to `S = 1.2`. -/
theorem C8_soil_continuity_witness :
    compute_soil_saturation_component 1 = 70 ∧
    compute_soil_saturation_component 0.5 ≤
      compute_soil_saturation_component 1.2 :=
  ⟨C8_soil_continuity_monotone.1,
   C8_soil_continuity_monotone.2.2 0.5 1.2 (by norm_num)⟩

/-- C9, counterexample: on a concrete saturation map the feature bundle
returned by `compute_features` carries no `min_sat` and no `wettest_side`
entry (nor any forecast/IDF pass-through), contradicting the claimed
`FeatureSet` shape. -/
theorem C9_missing_fields_counterexample :
    compute_features [("north_sensor", 0.5), ("south_sensor", 0.3),
        ("east_sensor", 0.2), ("west_sensor", 0.1)] 5 10 =
      Except.ok [("sat_avg", 0.275), ("max_sat", 0.5), ("sat_asymmetry", 0.4),
        ("rain_6h_prev", 5), ("rain_12h_forecast", 10)] ∧
    dictGet [("sat_avg", 0.275), ("max_sat", 0.5), ("sat_asymmetry", 0.4),
        ("rain_6h_prev", 5), ("rain_12h_forecast", 10)] "min_sat" =
      Option.none ∧
    dictGet [("sat_avg", 0.275), ("max_sat", 0.5), ("sat_asymmetry", 0.4),
        ("rain_6h_prev", 5), ("rain_12h_forecast", 10)] "wettest_side" =
      Option.none := by
  refine ⟨?_, by simp [dictGet_head, dictGet_ne, dictGet_nil],
    by simp [dictGet_head, dictGet_ne, dictGet_nil]⟩
  unfold compute_features
  rw [dictGet_head, dictGet_ne _ _ _ _ (by rfl), dictGet_head,
    dictGet_ne _ _ _ _ (by rfl), dictGet_ne _ _ _ _ (by rfl), dictGet_head,
    dictGet_ne _ _ _ _ (by rfl), dictGet_ne _ _ _ _ (by rfl),
    dictGet_ne _ _ _ _ (by rfl), dictGet_head]
  dsimp only
  norm_num [min_def, max_def]

/-- C9 (amended): for every saturation map containing the four sensor keys,
`compute_features` returns a bundle in which `sat_avg` is the arithmetic
mean of the four values, `max_sat` their maximum,
`sat_asymmetry = max − min`, and the two rainfall inputs `rain_6h_prev` and
`rain_12h_forecast` pass through unchanged; the bundle carries no `min_sat`,
`wettest_side`, `forecast_24h_mm`, `idf_24h_2yr_mm` or
`soil_saturation_1h_ago` entry. -/
theorem C9_feature_bundle (sv : List (String × ℚ)) (r6 r12 n s e w : ℚ)
    (hn : dictGet sv "north_sensor" = some n)
    (hs : dictGet sv "south_sensor" = some s)
    (he : dictGet sv "east_sensor" = some e)
    (hw : dictGet sv "west_sensor" = some w) :
    ∃ out, compute_features sv r6 r12 = Except.ok out ∧
      dictGet out "sat_avg" = some ((n + s + e + w) / 4) ∧
      dictGet out "max_sat" = some (max (max (max n s) e) w) ∧
      dictGet out "sat_asymmetry" = some (max (max (max n s) e) w -
        min (min (min n s) e) w) ∧
      dictGet out "rain_6h_prev" = some r6 ∧
      dictGet out "rain_12h_forecast" = some r12 ∧
      dictGet out "min_sat" = Option.none ∧
      dictGet out "wettest_side" = Option.none ∧
      dictGet out "forecast_24h_mm" = Option.none ∧
      dictGet out "idf_24h_2yr_mm" = Option.none ∧
      dictGet out "soil_saturation_1h_ago" = Option.none := by
  unfold compute_features
  rw [hn, hs, he, hw]
  dsimp only
  refine ⟨_, rfl, ?_, ?_, ?_, ?_, ?_, ?_, ?_, ?_, ?_, ?_⟩ <;>
    · simp [dictGet_head, dictGet_ne, dictGet_nil]
      try ring

/-- C9, witness: the amended bundle shape at a concrete saturation map. -/
theorem C9_feature_bundle_witness :
    ∃ out, compute_features [("north_sensor", 0.4), ("south_sensor", 0.3),
        ("east_sensor", 0.2), ("west_sensor", 0.1)] 1 2 = Except.ok out ∧
      dictGet out "sat_avg" = some ((0.4 + 0.3 + 0.2 + 0.1) / 4) ∧
      dictGet out "max_sat" = some (max (max (max 0.4 0.3) 0.2) 0.1) ∧
      dictGet out "sat_asymmetry" = some (max (max (max 0.4 0.3) 0.2) 0.1 -
        min (min (min 0.4 0.3) 0.2) 0.1) ∧
      dictGet out "rain_6h_prev" = some 1 ∧
      dictGet out "rain_12h_forecast" = some 2 ∧
      dictGet out "min_sat" = Option.none ∧
      dictGet out "wettest_side" = Option.none ∧
      dictGet out "forecast_24h_mm" = Option.none ∧
      dictGet out "idf_24h_2yr_mm" = Option.none ∧
      dictGet out "soil_saturation_1h_ago" = Option.none :=
  C9_feature_bundle _ 1 2 0.4 0.3 0.2 0.1
    (by simp [dictGet_head, dictGet_ne, dictGet_nil])
    (by simp [dictGet_head, dictGet_ne, dictGet_nil])
    (by simp [dictGet_head, dictGet_ne, dictGet_nil])
    (by simp [dictGet_head, dictGet_ne, dictGet_nil])

/-- C10: with a strictly positive IDF reference the soil component is at
most 100, the site-sensitivity factor at most 1, any returned storm factor
at most 1.5, and the internal risk score at most 250 — the internal score
is bounded above, not unbounded. -/
theorem C10_internal_le_250 (S_now S_1h fc idf : ℚ) (h : 0 < idf) :
    compute_soil_saturation_component S_now ≤ 100 ∧
    compute_site_sensitivity_component S_now S_1h ≤ 1 ∧
    (∀ v, compute_storm_severity_component fc idf = Except.ok v → v ≤ 1.5) ∧
    (∀ internal displayed,
      compute_risk_score S_now S_1h fc idf = Except.ok (internal, displayed) →
      internal ≤ 250) := by
  obtain ⟨v, hv, hv0, hv15⟩ := storm_ok fc idf (ne_of_gt h)
  refine ⟨soil_le_100 _, sens_le_one _ _, ?_, ?_⟩
  · intro w hw
    rw [hv] at hw
    injection hw with hvw
    rw [← hvw]
    exact hv15
  · intro internal displayed hok
    rw [risk_eval S_now S_1h fc idf v hv] at hok
    simp only [Except.ok.injEq, Prod.mk.injEq] at hok
    obtain ⟨hi, -⟩ := hok
    rw [← hi]
    have hb0 := soil_nonneg S_now
    have hb100 := soil_le_100 S_now
    have hsens0 := sens_nonneg S_now S_1h
    have hsens1 := sens_le_one S_now S_1h
    have hprod : compute_site_sensitivity_component S_now S_1h * v ≤ 1.5 := by
      nlinarith
    have hprod0 : 0 ≤ compute_site_sensitivity_component S_now S_1h * v :=
      mul_nonneg hsens0 hv0
    nlinarith

/-- C10, witness: the extreme input `S_now = 1.5`, storm ratio 2, maximal
sensitivity, where the bounds are attained. -/
theorem C10_internal_le_250_witness :
    compute_soil_saturation_component 1.5 ≤ 100 ∧
    compute_site_sensitivity_component 1.5 0 ≤ 1 ∧
    (∀ v, compute_storm_severity_component 50 25 = Except.ok v → v ≤ 1.5) ∧
    (∀ internal displayed,
      compute_risk_score 1.5 0 50 25 = Except.ok (internal, displayed) →
      internal ≤ 250) :=
  C10_internal_le_250 1.5 0 50 25 (by norm_num)

end FloodMonitor
